import Mathlib

/-!
Shallow embedding of the X3D Geometry2D primitive readers
(code/AssetLib/X3D/X3DImporter_Geometry2D.cpp) of the assimp repository.

Coordinates are exact rationals standing in for the C++ floats; none of the
verified claims hinges on floating-point rounding.  The tessellation helper
X3DGeoHelper::make_arc2D is not part of the sources under verification, so
every reader that consumes its output is parametrized by the produced point
list.  Helpers that the readers call but whose definitions live outside the
verified sources (X3DGeoHelper::extend_point_to_line, the USE lookup macro,
the error classification) are modelled from the specification and marked as
such in their doc comments.
-/

/-- A 3D vector with exact rational coordinates, standing in for aiVector3D. -/
abbrev Vec3 : Type := ℚ × ℚ × ℚ

/-- The zero vector, used as the lookup default for list indexing. -/
def v0 : Vec3 := ((0 : ℚ), (0 : ℚ), (0 : ℚ))

/-- Element-type tags of the eight Geometry2D primitives (X3DElemType). -/
inductive X3DElemType : Type where
  | ENET_Arc2D
  | ENET_ArcClose2D
  | ENET_Circle2D
  | ENET_Disk2D
  | ENET_Polyline2D
  | ENET_Polypoint2D
  | ENET_Rectangle2D
  | ENET_TriangleSet2D
deriving DecidableEq

/-- Modelled from the spec: the concrete C++ exception transport is outside
the verified sources; section 7 of the spec classifies the failure kinds
(ReferenceError, AttributeValueError with primitive kind and attribute name,
GeometricConstraintError, and generic fatal failures).  `endIteratorDeref`
marks a dereference of a C++ end iterator, which is undefined behavior. -/
inductive X3DError : Type where
  | referenceError (useName : String)
  | attributeValueError (kind attr : String)
  | geometricConstraintError (kind attr : String)
  | fatalError (msg : String)
  | endIteratorDeref
deriving DecidableEq

/-- One geometry node element (X3DNodeElementGeometry2D): type tag, optional
DEF name, vertex list, solid flag and index-grouping arity (NumIndices). -/
structure X3DNodeElementGeometry2D : Type where
  kind : X3DElemType
  ID : Option String
  Vertices : List Vec3
  Solid : Bool
  NumIndices : Nat
deriving DecidableEq

/-- Import-pass state.  `arena` is the allocation heap: the identity of a node is
its arena index, so pointer (reference) equality is index equality.
`NodeElement_List` is the definition registry, `Children` the children list
of the currently-open parent element (mNodeElementCur->Children); both hold
arena indices, i.e. pointers. -/
structure ImportState : Type where
  arena : List X3DNodeElementGeometry2D
  NodeElement_List : List Nat
  Children : List Nat
deriving DecidableEq

/-- Result of one reader call: the error raised (if any) and the state as it
stands when the call exits; mutations performed before a throw are kept. -/
abbrev ReadResult : Type := Option X3DError × ImportState

/-- Whether registry entry `i` is a definition named `useName` of kind `t`. -/
def matchesUse (st : ImportState) (useName : String) (t : X3DElemType) (i : Nat) : Bool :=
  match st.arena.get? i with
  | some n => decide (n.ID = some useName) && decide (n.kind = t)
  | none => false

/-- Modelled from the spec: MACRO_USE_CHECKANDAPPLY (X3DImporter_Macro.hpp is
not among the verified sources).  Spec section 4.2: look the USE name up by
(kind, name) in the registry; if absent fail with a reference error; if
present attach the found node itself (the same arena index, not a copy) to
the children of the current parent. -/
def useCheckAndApply (st : ImportState) (useName : String) (t : X3DElemType) : ReadResult :=
  match st.NodeElement_List.find? (matchesUse st useName t) with
  | none => (some (X3DError.referenceError useName), st)
  | some i => (none, ⟨st.arena, st.NodeElement_List, st.Children ++ [i]⟩)

/-- The optional DEF name as stored on a node: `if (!def.empty()) ne->ID = def`. -/
def defID (defName : String) : Option String :=
  if defName = "" then none else some defName

/-- Common tail of every definition-path reader (the last lines of each
read function): allocate the node, attach it to the children of the current
parent only when the source node is empty (`isNodeEmpty`; otherwise
childrenReadMetadata defers the attachment), and append it to the
definition registry NodeElement_List. -/
def registerNode (st : ImportState) (n : X3DNodeElementGeometry2D) (nodeEmpty : Bool) :
    ImportState :=
  ⟨st.arena ++ [n],
   st.NodeElement_List ++ [st.arena.length],
   if nodeEmpty then st.Children ++ [st.arena.length] else st.Children⟩

/-- Edge list of the closed line strip over `pts`: edge `i` joins point `i`
to point `(i + 1) % k`, including the closing edge from the last point back
to the first. -/
def lineStripPairs (pts : List Vec3) : List (Vec3 × Vec3) :=
  (List.range pts.length).map
    (fun i => (pts.getD i v0, pts.getD ((i + 1) % pts.length) v0))

/-- Flattens an edge list into the vertex stream consumed with arity 2. -/
def pairsFlatten : List (Vec3 × Vec3) → List Vec3
  | [] => []
  | e :: es => e.1 :: e.2 :: pairsFlatten es

/-- Modelled from the spec: X3DGeoHelper::extend_point_to_line is not among
the verified sources.  Spec section 4.1 (points_to_line_strip): for points
P0 .. Pn-1 produce the consecutive pairs (P0,P1), (P1,P2), ... and close the
loop with (Pn-1,P0); an input of fewer than 2 points is an error. -/
def extend_point_to_line (pts : List Vec3) : Except X3DError (List Vec3) :=
  if pts.length < 2 then
    Except.error (X3DError.fatalError "GeoHelper.extend_point_to_line.")
  else
    Except.ok (pairsFlatten (lineStripPairs pts))

/-- AI_MATH_TWO_PI_F, the 32-bit float nearest to two pi, as an exact
rational; no verified claim depends on its exact value. -/
def twoPiF : ℚ := mkRat 13176795 2097152

/-- Models `vlist.push_back(*vlist.begin())`: appends a copy of the first
element; dereferencing begin() of an empty list is undefined behavior. -/
def pushBackFront (v : List Vec3) : Option (List Vec3) :=
  match v.head? with
  | none => none
  | some h => some (v ++ [h])

/-- X3DImporter::readArc2D, parametrized by `arcPts`, the point list produced
by X3DGeoHelper::make_arc2D(startAngle, endAngle, radius, 10, tlist). -/
def readArc2D (st : ImportState) (defName useName : String) (nodeEmpty : Bool)
    (arcPts : List Vec3) : ReadResult :=
  if useName ≠ "" then
    useCheckAndApply st useName X3DElemType.ENET_Arc2D
  else
    match extend_point_to_line arcPts with
    | Except.error e => (some e, st)
    | Except.ok verts =>
        (none, registerNode st
          ⟨X3DElemType.ENET_Arc2D, defID defName, verts, false, 2⟩ nodeEmpty)

/-- X3DImporter::readCircle2D, parametrized by `arcPts`, the point list
produced by X3DGeoHelper::make_arc2D(0, 0, radius, 10, tlist). -/
def readCircle2D (st : ImportState) (defName useName : String) (nodeEmpty : Bool)
    (arcPts : List Vec3) : ReadResult :=
  if useName ≠ "" then
    useCheckAndApply st useName X3DElemType.ENET_Circle2D
  else
    match extend_point_to_line arcPts with
    | Except.error e => (some e, st)
    | Except.ok verts =>
        (none, registerNode st
          ⟨X3DElemType.ENET_Circle2D, defID defName, verts, false, 2⟩ nodeEmpty)

/-- X3DImporter::readArcClose2D, parametrized by `arcPts`, the point list
produced by X3DGeoHelper::make_arc2D(startAngle, endAngle, radius, 10, ...).
On the definition path: if the swept range is not a full circle, a PIE
closure appends the center point and then a copy of the first vertex, a
CHORD closure appends a copy of the first vertex only, and any other
closureType raises the attribute-value error; NumIndices is the final vertex
count.  The error classification is modelled from the spec. -/
def readArcClose2D (st : ImportState) (defName useName : String) (nodeEmpty : Bool)
    (closureType : String) (startAngle endAngle : ℚ) (solid : Bool)
    (arcPts : List Vec3) : ReadResult :=
  if useName ≠ "" then
    useCheckAndApply st useName X3DElemType.ENET_ArcClose2D
  else
    if ¬(|endAngle - startAngle| ≥ twoPiF ∨ endAngle = startAngle) then
      if closureType = "PIE" ∨ closureType = "\"PIE\"" then
        match pushBackFront (arcPts ++ [v0]) with
        | none => (some X3DError.endIteratorDeref, st)
        | some verts =>
            (none, registerNode st
              ⟨X3DElemType.ENET_ArcClose2D, defID defName, verts, solid,
               verts.length⟩ nodeEmpty)
      else if closureType ≠ "CHORD" ∧ closureType ≠ "\"CHORD\"" then
        (some (X3DError.attributeValueError "ArcClose2D" "closureType"), st)
      else
        match pushBackFront arcPts with
        | none => (some X3DError.endIteratorDeref, st)
        | some verts =>
            (none, registerNode st
              ⟨X3DElemType.ENET_ArcClose2D, defID defName, verts, solid,
               verts.length⟩ nodeEmpty)
    else
      (none, registerNode st
        ⟨X3DElemType.ENET_ArcClose2D, defID defName, arcPts, solid,
         arcPts.length⟩ nodeEmpty)

/-- The quad-building loop of readDisk2D, exactly as written: it iterates
while it_i has not reached end; each iteration pushes *it_i, advances it_i,
pushes *it_o, advances it_o, then pushes *it_o and *it_i again.  On the
final iteration those last two pushes dereference the end iterator; `none`
marks that undefined behavior. -/
def diskQuadLoop : List Vec3 → List Vec3 → Option (List Vec3)
  | [], _ => some []
  | _ :: _, [] => none
  | i :: is, o :: os =>
    match os.head?, is.head? with
    | some o2, some i2 =>
        (diskQuadLoop is os).map (fun r => i :: o :: o2 :: i2 :: r)
    | _, _ => none

/-- X3DImporter::readDisk2D, parametrized by the outer and inner point rings
`tlist_o` and `tlist_i` produced by X3DGeoHelper::make_arc2D(0, 0, r, 10, ...)
for the outer and inner radius.  The error classification (geometric
constraint for innerRadius > outerRadius) is modelled from the spec. -/
def readDisk2D (st : ImportState) (defName useName : String) (nodeEmpty : Bool)
    (innerRadius outerRadius : ℚ) (solid : Bool)
    (tlist_o tlist_i : List Vec3) : ReadResult :=
  if useName ≠ "" then
    useCheckAndApply st useName X3DElemType.ENET_Disk2D
  else if innerRadius > outerRadius then
    (some (X3DError.geometricConstraintError "Disk2D" "innerRadius"), st)
  else if innerRadius = 0 then
    (none, registerNode st
      ⟨X3DElemType.ENET_Disk2D, defID defName, tlist_o, solid,
       tlist_o.length⟩ nodeEmpty)
  else if innerRadius = outerRadius then
    match extend_point_to_line tlist_o with
    | Except.error e => (some e, st)
    | Except.ok verts =>
        (none, registerNode st
          ⟨X3DElemType.ENET_Disk2D, defID defName, verts, solid, 2⟩ nodeEmpty)
  else
    if tlist_i.length < 2 then
      (some (X3DError.fatalError "Disk2D. Not enough points for creating quad list."), st)
    else
      match diskQuadLoop tlist_i tlist_o with
      | none => (some X3DError.endIteratorDeref, st)
      | some qs =>
        match tlist_i.getLast?, tlist_o.getLast?, tlist_o.head?, tlist_i.head? with
        | some iBack, some oBack, some oFront, some iFront =>
            (none, registerNode st
              ⟨X3DElemType.ENET_Disk2D, defID defName,
               qs ++ [iBack, oBack, oFront, iFront], solid, 4⟩ nodeEmpty)
        | _, _, _, _ => (some X3DError.endIteratorDeref, st)

/-- Lifts 2D points to 3D with z = 0, as the per-reader conversion loops do. -/
def lift2D (ps : List (ℚ × ℚ)) : List Vec3 :=
  ps.map (fun p => (p.1, p.2, (0 : ℚ)))

/-- X3DImporter::readPolyline2D. -/
def readPolyline2D (st : ImportState) (defName useName : String) (nodeEmpty : Bool)
    (lineSegments : List (ℚ × ℚ)) : ReadResult :=
  if useName ≠ "" then
    useCheckAndApply st useName X3DElemType.ENET_Polyline2D
  else
    match extend_point_to_line (lift2D lineSegments) with
    | Except.error e => (some e, st)
    | Except.ok verts =>
        (none, registerNode st
          ⟨X3DElemType.ENET_Polyline2D, defID defName, verts, false, 2⟩ nodeEmpty)

/-- X3DImporter::readPolypoint2D. -/
def readPolypoint2D (st : ImportState) (defName useName : String) (nodeEmpty : Bool)
    (point : List (ℚ × ℚ)) : ReadResult :=
  if useName ≠ "" then
    useCheckAndApply st useName X3DElemType.ENET_Polypoint2D
  else
    (none, registerNode st
      ⟨X3DElemType.ENET_Polypoint2D, defID defName, lift2D point, false, 1⟩ nodeEmpty)

/-- X3DImporter::readRectangle2D. -/
def readRectangle2D (st : ImportState) (defName useName : String) (nodeEmpty : Bool)
    (sizeX sizeY : ℚ) (solid : Bool) : ReadResult :=
  if useName ≠ "" then
    useCheckAndApply st useName X3DElemType.ENET_Rectangle2D
  else
    let x1 : ℚ := -sizeX / 2
    let x2 : ℚ := sizeX / 2
    let y1 : ℚ := -sizeY / 2
    let y2 : ℚ := sizeY / 2
    (none, registerNode st
      ⟨X3DElemType.ENET_Rectangle2D, defID defName,
       [(x2, y1, (0 : ℚ)), (x2, y2, (0 : ℚ)), (x1, y2, (0 : ℚ)), (x1, y1, (0 : ℚ))],
       solid, 4⟩ nodeEmpty)

/-- X3DImporter::readTriangleSet2D.  The error classification for a point
count that is not a multiple of 3 is modelled from the spec. -/
def readTriangleSet2D (st : ImportState) (defName useName : String) (nodeEmpty : Bool)
    (solid : Bool) (vertices : List (ℚ × ℚ)) : ReadResult :=
  if useName ≠ "" then
    useCheckAndApply st useName X3DElemType.ENET_TriangleSet2D
  else if vertices.length % 3 ≠ 0 then
    (some (X3DError.attributeValueError "TriangleSet2D" "vertices"), st)
  else
    (none, registerNode st
      ⟨X3DElemType.ENET_TriangleSet2D, defID defName, lift2D vertices, solid, 3⟩ nodeEmpty)

/-- Placeholder node, used only as the lookup default of `newNodeOf`. -/
def emptyNode : X3DNodeElementGeometry2D :=
  ⟨X3DElemType.ENET_Arc2D, none, [], false, 0⟩

/-- The node a definition-path reader call allocated: the arena entry at the
first index that was free before the call. -/
def newNodeOf (st : ImportState) (r : ReadResult) : X3DNodeElementGeometry2D :=
  r.2.arena.getD st.arena.length emptyNode

/-- Registry and attachment contract of a successful definition-path call:
the index of the new node is appended to NodeElement_List exactly once, and
to the children of the parent exactly when the source node has no nested content. -/
def defPathOk (st : ImportState) (nodeEmpty : Bool) (r : ReadResult) : Prop :=
  r.2.NodeElement_List = st.NodeElement_List ++ [st.arena.length] ∧
  r.2.Children = (if nodeEmpty then st.Children ++ [st.arena.length] else st.Children)

/-- The PIE closure rule as the claim states it, read literally: prepend the
origin to the arc points, then append the first arc point. -/
def pieClosureClaim (arcPts : List Vec3) : List Vec3 :=
  v0 :: (arcPts ++ [arcPts.headD v0])

/-- Empty import state, used by the concrete witnesses. -/
def st0 : ImportState := ⟨[], [], []⟩

/-- Import state holding one registered Circle2D definition named c1, used by
the USE-path witnesses. -/
def st1 : ImportState :=
  ⟨[⟨X3DElemType.ENET_Circle2D, some "c1", [((1 : ℚ), 0, 0), ((0 : ℚ), 1, 0)], false, 2⟩],
   [0], [0]⟩

/-- Sample two-point arc used by the concrete counterexamples. -/
def arcSample : List Vec3 := [((1 : ℚ), 0, 0), ((0 : ℚ), 1, 0)]

/-! Helper lemmas. -/

theorem getD_append_length {α : Type} (l : List α) (a d : α) :
    (l ++ [a]).getD l.length d = a := by
  induction l with
  | nil => rfl
  | cons x xs ih => simp only [List.cons_append, List.length_cons, List.getD_cons_succ]; exact ih

theorem newNodeOf_registerNode (st : ImportState) (e : Option X3DError)
    (n : X3DNodeElementGeometry2D) (b : Bool) :
    newNodeOf st (e, registerNode st n b) = n := by
  simp [newNodeOf, registerNode, getD_append_length]

theorem pairsFlatten_length (ps : List (Vec3 × Vec3)) :
    (pairsFlatten ps).length = 2 * ps.length := by
  induction ps with
  | nil => rfl
  | cons p ps ih => simp [pairsFlatten, ih]; ring

theorem pairsFlatten_getD_left (ps : List (Vec3 × Vec3)) (i : Nat) (h : i < ps.length) :
    (pairsFlatten ps).getD (2 * i) v0 = (ps.getD i (v0, v0)).1 := by
  induction ps generalizing i with
  | nil => simp at h
  | cons p ps ih =>
    cases i with
    | zero => rfl
    | succ j =>
      have h2 : 2 * (j + 1) = 2 * j + 1 + 1 := by ring
      rw [h2]
      show (pairsFlatten ps).getD (2 * j) v0 = _
      simpa using ih j (by simpa using h)

theorem pairsFlatten_getD_right (ps : List (Vec3 × Vec3)) (i : Nat) (h : i < ps.length) :
    (pairsFlatten ps).getD (2 * i + 1) v0 = (ps.getD i (v0, v0)).2 := by
  induction ps generalizing i with
  | nil => simp at h
  | cons p ps ih =>
    cases i with
    | zero => rfl
    | succ j =>
      have h2 : 2 * (j + 1) + 1 = 2 * j + 1 + 1 + 1 := by ring
      rw [h2]
      show (pairsFlatten ps).getD (2 * j + 1) v0 = _
      simpa using ih j (by simpa using h)

theorem lineStripPairs_length (pts : List Vec3) :
    (lineStripPairs pts).length = pts.length := by
  simp [lineStripPairs]

theorem lineStripPairs_getD (pts : List Vec3) (i : Nat) (h : i < pts.length) :
    (lineStripPairs pts).getD i (v0, v0) =
      (pts.getD i v0, pts.getD ((i + 1) % pts.length) v0) := by
  have hlen : i < (lineStripPairs pts).length := by rwa [lineStripPairs_length]
  rw [List.getD_eq_getElem _ _ hlen]
  simp [lineStripPairs]

theorem defPathOk_registerNode (st : ImportState) (n : X3DNodeElementGeometry2D)
    (b : Bool) (e : Option X3DError) : defPathOk st b (e, registerNode st n b) :=
  ⟨rfl, rfl⟩

theorem readArc2D_shape (st : ImportState) (dn : String) (ne : Bool) (pts : List Vec3) :
    (∃ e, readArc2D st dn "" ne pts = (some e, st)) ∨
    (∃ n, readArc2D st dn "" ne pts = (none, registerNode st n ne)) := by
  unfold readArc2D
  rw [if_neg (by simp)]
  cases hx : extend_point_to_line pts with
  | error e => exact Or.inl ⟨e, rfl⟩
  | ok v => exact Or.inr ⟨_, rfl⟩

theorem readCircle2D_shape (st : ImportState) (dn : String) (ne : Bool) (pts : List Vec3) :
    (∃ e, readCircle2D st dn "" ne pts = (some e, st)) ∨
    (∃ n, readCircle2D st dn "" ne pts = (none, registerNode st n ne)) := by
  unfold readCircle2D
  rw [if_neg (by simp)]
  cases hx : extend_point_to_line pts with
  | error e => exact Or.inl ⟨e, rfl⟩
  | ok v => exact Or.inr ⟨_, rfl⟩

theorem readArcClose2D_shape (st : ImportState) (dn : String) (ne : Bool)
    (ct : String) (sa ea : ℚ) (s : Bool) (pts : List Vec3) :
    (∃ e, readArcClose2D st dn "" ne ct sa ea s pts = (some e, st)) ∨
    (∃ n, readArcClose2D st dn "" ne ct sa ea s pts = (none, registerNode st n ne)) := by
  unfold readArcClose2D
  rw [if_neg (by simp)]
  by_cases h1 : ¬(|ea - sa| ≥ twoPiF ∨ ea = sa)
  · rw [if_pos h1]
    by_cases h2 : ct = "PIE" ∨ ct = "\"PIE\""
    · rw [if_pos h2]
      cases hp : pushBackFront (pts ++ [v0]) with
      | none => exact Or.inl ⟨_, rfl⟩
      | some v => exact Or.inr ⟨_, rfl⟩
    · rw [if_neg h2]
      by_cases h3 : ct ≠ "CHORD" ∧ ct ≠ "\"CHORD\""
      · rw [if_pos h3]; exact Or.inl ⟨_, rfl⟩
      · rw [if_neg h3]
        cases hp : pushBackFront pts with
        | none => exact Or.inl ⟨_, rfl⟩
        | some v => exact Or.inr ⟨_, rfl⟩
  · rw [if_neg h1]; exact Or.inr ⟨_, rfl⟩

theorem readDisk2D_shape (st : ImportState) (dn : String) (ne : Bool)
    (ir orad : ℚ) (s : Bool) (tlo tli : List Vec3) :
    (∃ e, readDisk2D st dn "" ne ir orad s tlo tli = (some e, st)) ∨
    (∃ n, readDisk2D st dn "" ne ir orad s tlo tli = (none, registerNode st n ne)) := by
  unfold readDisk2D
  rw [if_neg (by simp)]
  split_ifs with h1 h2 h3 h4
  · exact Or.inl ⟨_, rfl⟩
  · exact Or.inr ⟨_, rfl⟩
  · cases hx : extend_point_to_line tlo with
    | error e => exact Or.inl ⟨e, rfl⟩
    | ok v => exact Or.inr ⟨_, rfl⟩
  · exact Or.inl ⟨_, rfl⟩
  · cases hq : diskQuadLoop tli tlo with
    | none => exact Or.inl ⟨_, rfl⟩
    | some qs =>
      rcases hA : tli.getLast? with _ | iB
      · exact Or.inl ⟨_, rfl⟩
      · rcases hB : tlo.getLast? with _ | oB
        · exact Or.inl ⟨_, rfl⟩
        · rcases hC : tlo.head? with _ | oF
          · exact Or.inl ⟨_, rfl⟩
          · rcases hD : tli.head? with _ | iF
            · exact Or.inl ⟨_, rfl⟩
            · exact Or.inr ⟨_, rfl⟩

theorem readPolyline2D_shape (st : ImportState) (dn : String) (ne : Bool)
    (ps : List (ℚ × ℚ)) :
    (∃ e, readPolyline2D st dn "" ne ps = (some e, st)) ∨
    (∃ n, readPolyline2D st dn "" ne ps = (none, registerNode st n ne)) := by
  unfold readPolyline2D
  rw [if_neg (by simp)]
  cases hx : extend_point_to_line (lift2D ps) with
  | error e => exact Or.inl ⟨e, rfl⟩
  | ok v => exact Or.inr ⟨_, rfl⟩

theorem readPolypoint2D_shape (st : ImportState) (dn : String) (ne : Bool)
    (ps : List (ℚ × ℚ)) :
    (∃ n, readPolypoint2D st dn "" ne ps = (none, registerNode st n ne)) := by
  unfold readPolypoint2D
  rw [if_neg (by simp)]
  exact ⟨_, rfl⟩

theorem readRectangle2D_shape (st : ImportState) (dn : String) (ne : Bool)
    (w h : ℚ) (s : Bool) :
    (∃ n, readRectangle2D st dn "" ne w h s = (none, registerNode st n ne)) := by
  unfold readRectangle2D
  rw [if_neg (by simp)]
  exact ⟨_, rfl⟩

theorem readTriangleSet2D_shape (st : ImportState) (dn : String) (ne : Bool)
    (s : Bool) (vs : List (ℚ × ℚ)) :
    (∃ e, readTriangleSet2D st dn "" ne s vs = (some e, st)) ∨
    (∃ n, readTriangleSet2D st dn "" ne s vs = (none, registerNode st n ne)) := by
  unfold readTriangleSet2D
  rw [if_neg (by simp)]
  split_ifs with h1
  · exact Or.inl ⟨_, rfl⟩
  · exact Or.inr ⟨_, rfl⟩

/-! Claim theorems. -/

/-- C1 (failing input): on the Disk2D definition path with
0 < innerRadius < outerRadius and two equal-length two-point rings, the quad
loop dereferences the end iterator on its final iteration (its condition
stops only once it_i reaches end, after the 3rd and 4th corner reads have
already walked past the last element), so the reader aborts with undefined
behavior instead of emitting one quad per ring step.  The comments in the
code itself ("add all quads except last" followed by a separate "add last
quad" block) show one fewer iteration was intended. -/
theorem disk2d_quad_loop_derefs_end :
    diskQuadLoop [((1 : ℚ), 0, 0), ((-1 : ℚ), 0, 0)]
      [((2 : ℚ), 0, 0), ((-2 : ℚ), 0, 0)] = none ∧
    readDisk2D st0 "" "" true 1 2 false
      [((2 : ℚ), 0, 0), ((-2 : ℚ), 0, 0)] [((1 : ℚ), 0, 0), ((-1 : ℚ), 0, 0)] =
      (some X3DError.endIteratorDeref, st0) := by
  constructor
  · rfl
  · with_unfolding_all decide

/-- C2 (counterexample): on the definition path with a non-full-circle range
and closureType PIE the reader does not prepend the origin to the arc
points; the produced vertex list differs from the prepended form the claim
describes.  The origin is appended after the arc points, before the repeat
of the first arc point. -/
theorem arcclose2d_pie_not_prepended :
    (readArcClose2D st0 "" "" true "PIE" 0 1 false arcSample).1 = none ∧
    (newNodeOf st0 (readArcClose2D st0 "" "" true "PIE" 0 1 false arcSample)).Vertices ≠
      pieClosureClaim arcSample ∧
    (newNodeOf st0 (readArcClose2D st0 "" "" true "PIE" 0 1 false arcSample)).Vertices =
      arcSample ++ [v0, ((1 : ℚ), 0, 0)] := by
  refine ⟨?_, ?_, ?_⟩ <;> with_unfolding_all decide

/-- C3 (counterexample): an ArcClose2D definition-path call whose closureType
is neither PIE nor CHORD does not raise an error when the swept range is a
full circle (startAngle = endAngle): the closure branch, validation
included, is skipped entirely. -/
theorem arcclose2d_wedge_full_circle_no_error :
    (readArcClose2D st0 "" "" true "WEDGE" 0 0 false arcSample).1 = none := by
  with_unfolding_all decide

/-- C7: the TriangleSet2D definition path raises the attribute-value error
exactly when the input point count is not a multiple of 3; otherwise it
succeeds with one output vertex per input point, in order, lifted to z = 0,
and NumIndices 3. -/
theorem triangleset2d_multiple_of_three (st : ImportState) (defName : String)
    (nodeEmpty : Bool) (solid : Bool) (vertices : List (ℚ × ℚ)) :
    (vertices.length % 3 ≠ 0 →
      readTriangleSet2D st defName "" nodeEmpty solid vertices =
        (some (X3DError.attributeValueError "TriangleSet2D" "vertices"), st)) ∧
    (vertices.length % 3 = 0 →
      readTriangleSet2D st defName "" nodeEmpty solid vertices =
        (none, registerNode st
          ⟨X3DElemType.ENET_TriangleSet2D, defID defName,
           vertices.map (fun p => (p.1, p.2, (0 : ℚ))), solid, 3⟩ nodeEmpty)) := by
  constructor
  · intro h
    unfold readTriangleSet2D
    rw [if_neg (by simp), if_pos h]
  · intro h
    unfold readTriangleSet2D
    rw [if_neg (by simp), if_neg (by simp [h])]
    rfl

/-- C7 witness: four points raise the attribute-value error; six points
succeed with six output vertices in order at z = 0 and NumIndices 3. -/
theorem triangleset2d_multiple_of_three_witness :
    readTriangleSet2D st0 "" "" true false [(1, 1), (2, 1), (1, 2), (3, 3)] =
      (some (X3DError.attributeValueError "TriangleSet2D" "vertices"), st0) ∧
    readTriangleSet2D st0 "" "" true false [(1, 1), (2, 1), (1, 2), (3, 3), (4, 1), (4, 2)] =
      (none, registerNode st0
        ⟨X3DElemType.ENET_TriangleSet2D, defID "",
         [((1 : ℚ), 1, 0), ((2 : ℚ), 1, 0), ((1 : ℚ), 2, 0), ((3 : ℚ), 3, 0),
          ((4 : ℚ), 1, 0), ((4 : ℚ), 2, 0)], false, 3⟩ true) := by
  constructor
  · exact (triangleset2d_multiple_of_three st0 "" true false
      [(1, 1), (2, 1), (1, 2), (3, 3)]).1 (by decide)
  · have h := (triangleset2d_multiple_of_three st0 "" true false
      [(1, 1), (2, 1), (1, 2), (3, 3), (4, 1), (4, 2)]).2 (by decide)
    rw [h]
    rfl

/-- C2 (amended): for ArcClose2D on the definition path with a non-full-circle
swept range, a PIE closure appends the origin and then the first arc point
(the arc sequence plus exactly two extra points, both at the end, in that
order), a CHORD closure appends the first arc point only, a full-circle
range adds no closure points, and in every non-error case NumIndices equals
the total vertex count of the node. -/
theorem arcclose2d_closure_appends (st : ImportState) (defName : String)
    (nodeEmpty : Bool) (startAngle endAngle : ℚ) (solid : Bool)
    (arcPts : List Vec3) (h0 : arcPts ≠ []) :
    (¬(|endAngle - startAngle| ≥ twoPiF ∨ endAngle = startAngle) →
      (∀ ct, (ct = "PIE" ∨ ct = "\"PIE\"") →
        readArcClose2D st defName "" nodeEmpty ct startAngle endAngle solid arcPts =
          (none, registerNode st
            ⟨X3DElemType.ENET_ArcClose2D, defID defName,
             arcPts ++ [v0, arcPts.headD v0], solid, arcPts.length + 2⟩ nodeEmpty)) ∧
      (∀ ct, (ct = "CHORD" ∨ ct = "\"CHORD\"") →
        readArcClose2D st defName "" nodeEmpty ct startAngle endAngle solid arcPts =
          (none, registerNode st
            ⟨X3DElemType.ENET_ArcClose2D, defID defName,
             arcPts ++ [arcPts.headD v0], solid, arcPts.length + 1⟩ nodeEmpty))) ∧
    ((|endAngle - startAngle| ≥ twoPiF ∨ endAngle = startAngle) →
      ∀ ct, readArcClose2D st defName "" nodeEmpty ct startAngle endAngle solid arcPts =
        (none, registerNode st
          ⟨X3DElemType.ENET_ArcClose2D, defID defName, arcPts, solid,
           arcPts.length⟩ nodeEmpty)) := by
  obtain ⟨a, as, rfl⟩ : ∃ a as, arcPts = a :: as := by
    cases arcPts with
    | nil => exact absurd rfl h0
    | cons a as => exact ⟨a, as, rfl⟩
  refine ⟨fun hnc => ⟨?_, ?_⟩, fun hc ct => ?_⟩
  · intro ct hct
    unfold readArcClose2D
    rw [if_neg (by simp), if_pos hnc, if_pos hct]
    show (none, _) = _
    simp [pushBackFront, registerNode]
  · intro ct hct
    have hnp : ¬(ct = "PIE" ∨ ct = "\"PIE\"") := by
      rcases hct with rfl | rfl <;> simp
    have hnchord : ¬(ct ≠ "CHORD" ∧ ct ≠ "\"CHORD\"") := by
      rcases hct with rfl | rfl <;> simp
    unfold readArcClose2D
    rw [if_neg (by simp), if_pos hnc, if_neg hnp, if_neg hnchord]
    show (none, _) = _
    simp [pushBackFront, registerNode]
  · unfold readArcClose2D
    rw [if_neg (by simp), if_neg (not_not_intro hc)]

/-- C2 witness: a concrete quarter-arc CHORD read and a concrete full-circle
read, instances of the amended closure theorem. -/
theorem arcclose2d_closure_appends_witness :
    readArcClose2D st0 "" "" true "CHORD" 0 1 false arcSample =
      (none, registerNode st0
        ⟨X3DElemType.ENET_ArcClose2D, defID "",
         arcSample ++ [arcSample.headD v0], false, arcSample.length + 1⟩ true) ∧
    readArcClose2D st0 "" "" true "PIE" 0 0 false arcSample =
      (none, registerNode st0
        ⟨X3DElemType.ENET_ArcClose2D, defID "", arcSample, false,
         arcSample.length⟩ true) := by
  constructor
  · exact ((arcclose2d_closure_appends st0 "" true 0 1 false arcSample (by decide)).1
      (by with_unfolding_all decide)).2 "CHORD" (Or.inl rfl)
  · exact (arcclose2d_closure_appends st0 "" true 0 0 false arcSample (by decide)).2
      (Or.inr rfl) "PIE"

/-- C3 (amended): an ArcClose2D definition-path call whose closureType is
none of PIE, quoted PIE, CHORD, quoted CHORD raises the attribute-value
error naming ArcClose2D and closureType, provided the swept range is not a
full circle; the state is returned untouched. -/
theorem arcclose2d_invalid_closure_type_error (st : ImportState) (defName : String)
    (nodeEmpty : Bool) (ct : String) (startAngle endAngle : ℚ) (solid : Bool)
    (arcPts : List Vec3)
    (hnc : ¬(|endAngle - startAngle| ≥ twoPiF ∨ endAngle = startAngle))
    (h1 : ct ≠ "PIE") (h2 : ct ≠ "\"PIE\"") (h3 : ct ≠ "CHORD") (h4 : ct ≠ "\"CHORD\"") :
    readArcClose2D st defName "" nodeEmpty ct startAngle endAngle solid arcPts =
      (some (X3DError.attributeValueError "ArcClose2D" "closureType"), st) := by
  unfold readArcClose2D
  rw [if_neg (by simp), if_pos hnc, if_neg (by simp [h1, h2]), if_pos ⟨h3, h4⟩]

/-- C3 witness: closureType WEDGE on a quarter-circle range raises the
attribute-value error naming ArcClose2D and closureType. -/
theorem arcclose2d_invalid_closure_type_error_witness :
    readArcClose2D st0 "" "" true "WEDGE" 0 1 false arcSample =
      (some (X3DError.attributeValueError "ArcClose2D" "closureType"), st0) :=
  arcclose2d_invalid_closure_type_error st0 "" true "WEDGE" 0 1 false arcSample
    (by with_unfolding_all decide) (by decide) (by decide) (by decide) (by decide)

/-- C4: Disk2D on the definition path raises the geometric-constraint error
when innerRadius exceeds outerRadius; with innerRadius 0 the output vertex
sequence is exactly the outer tessellated ring and NumIndices is the point
count of that ring; with innerRadius equal to outerRadius and nonzero the output is
the closed line strip over the outer ring with NumIndices 2. -/
theorem disk2d_radius_branches (st : ImportState) (defName : String)
    (nodeEmpty : Bool) (innerRadius outerRadius : ℚ) (solid : Bool)
    (tlist_o tlist_i : List Vec3) :
    (innerRadius > outerRadius →
      readDisk2D st defName "" nodeEmpty innerRadius outerRadius solid tlist_o tlist_i =
        (some (X3DError.geometricConstraintError "Disk2D" "innerRadius"), st)) ∧
    (innerRadius = 0 → 0 ≤ outerRadius →
      readDisk2D st defName "" nodeEmpty innerRadius outerRadius solid tlist_o tlist_i =
        (none, registerNode st
          ⟨X3DElemType.ENET_Disk2D, defID defName, tlist_o, solid,
           tlist_o.length⟩ nodeEmpty)) ∧
    (innerRadius = outerRadius → innerRadius ≠ 0 → 2 ≤ tlist_o.length →
      readDisk2D st defName "" nodeEmpty innerRadius outerRadius solid tlist_o tlist_i =
        (none, registerNode st
          ⟨X3DElemType.ENET_Disk2D, defID defName,
           pairsFlatten (lineStripPairs tlist_o), solid, 2⟩ nodeEmpty)) := by
  refine ⟨fun hgt => ?_, fun hz hle => ?_, fun heq hnz hlen => ?_⟩
  · unfold readDisk2D
    rw [if_neg (by simp), if_pos hgt]
  · unfold readDisk2D
    rw [if_neg (by simp), if_neg (by simp [hz]; exact hle), if_pos hz]
  · unfold readDisk2D
    rw [if_neg (by simp), if_neg (by simp [heq]), if_neg (by simpa [heq] using hnz),
      if_pos heq]
    have hx : extend_point_to_line tlist_o =
        Except.ok (pairsFlatten (lineStripPairs tlist_o)) := by
      unfold extend_point_to_line
      rw [if_neg (by omega)]
    rw [hx]

/-- C4 witness: concrete instances of all three Disk2D branches — inner 2,
outer 1 errors; inner 0 copies the outer ring with arity equal to its count;
inner = outer = 1 yields the closed two-point line strip with arity 2. -/
theorem disk2d_radius_branches_witness :
    readDisk2D st0 "" "" true 2 1 false arcSample arcSample =
      (some (X3DError.geometricConstraintError "Disk2D" "innerRadius"), st0) ∧
    readDisk2D st0 "" "" true 0 1 false arcSample [] =
      (none, registerNode st0
        ⟨X3DElemType.ENET_Disk2D, defID "", arcSample, false,
         arcSample.length⟩ true) ∧
    readDisk2D st0 "" "" true 1 1 false arcSample [] =
      (none, registerNode st0
        ⟨X3DElemType.ENET_Disk2D, defID "",
         pairsFlatten (lineStripPairs arcSample), false, 2⟩ true) := by
  refine ⟨?_, ?_, ?_⟩
  · exact (disk2d_radius_branches st0 "" true 2 1 false arcSample arcSample).1
      (by decide)
  · exact (disk2d_radius_branches st0 "" true 0 1 false arcSample []).2.1
      (by decide) (by decide)
  · exact (disk2d_radius_branches st0 "" true 1 1 false arcSample []).2.2
      (by decide) (by decide) (by decide)

/-- C9: Rectangle2D on the definition path with size (w, h) produces exactly
the four corners (w/2, -h/2), (w/2, h/2), (-w/2, h/2), (-w/2, -h/2), in that
order, at z = 0, with NumIndices 4; in particular size (4, 2) yields
(2,-1), (2,1), (-2,1), (-2,-1). -/
theorem rectangle2d_corners (st : ImportState) (defName : String)
    (nodeEmpty : Bool) (w h : ℚ) (solid : Bool) :
    (readRectangle2D st defName "" nodeEmpty w h solid =
      (none, registerNode st
        ⟨X3DElemType.ENET_Rectangle2D, defID defName,
         [(w / 2, -(h / 2), (0 : ℚ)), (w / 2, h / 2, (0 : ℚ)),
          (-(w / 2), h / 2, (0 : ℚ)), (-(w / 2), -(h / 2), (0 : ℚ))],
         solid, 4⟩ nodeEmpty)) ∧
    (newNodeOf st0 (readRectangle2D st0 "" "" true 4 2 false)).Vertices =
      [((2 : ℚ), -1, 0), ((2 : ℚ), 1, 0), ((-2 : ℚ), 1, 0), ((-2 : ℚ), -1, 0)] ∧
    (newNodeOf st0 (readRectangle2D st0 "" "" true 4 2 false)).NumIndices = 4 := by
  refine ⟨?_, ?_, ?_⟩
  · unfold readRectangle2D
    rw [if_neg (by simp)]
    have hw : -w / 2 = -(w / 2) := by ring
    have hh : -h / 2 = -(h / 2) := by ring
    rw [hw, hh]
  · show (newNodeOf st0 (readRectangle2D st0 "" "" true 4 2 false)).Vertices = _
    unfold readRectangle2D
    rw [if_neg (by simp), newNodeOf_registerNode]
    norm_num
  · unfold readRectangle2D
    rw [if_neg (by simp), newNodeOf_registerNode]

theorem defPathOk_of_shape {st : ImportState} {b : Bool} {r : ReadResult}
    (hsh : (∃ e, r = (some e, st)) ∨ (∃ n, r = (none, registerNode st n b)))
    (hnone : r.1 = none) : defPathOk st b r := by
  rcases hsh with ⟨e, he⟩ | ⟨n, hn⟩
  · rw [he] at hnone; simp at hnone
  · rw [hn]; exact defPathOk_registerNode st n b none

theorem state_eq_of_shape {st : ImportState} {b : Bool} {r : ReadResult}
    (hsh : (∃ e, r = (some e, st)) ∨ (∃ n, r = (none, registerNode st n b)))
    {e : X3DError} (he : r.1 = some e) : r.2 = st := by
  rcases hsh with ⟨e2, h⟩ | ⟨n, h⟩
  · rw [h]
  · rw [h] at he; simp at he

/-- C8: for Arc2D and Circle2D on the definition path, k tessellated points
(k at least 2) become a closed line strip of exactly 2k vertices in which
the pair at positions (2i, 2i+1) is the edge from point i to point
(i+1) mod k — the final pair wraps back to point 0 — and NumIndices is 2. -/
theorem arc_circle_closed_line_strip (st : ImportState) (defName : String)
    (nodeEmpty : Bool) (pts : List Vec3) (h2 : 2 ≤ pts.length) :
    ((readArc2D st defName "" nodeEmpty pts).1 = none ∧
     (newNodeOf st (readArc2D st defName "" nodeEmpty pts)).NumIndices = 2 ∧
     (newNodeOf st (readArc2D st defName "" nodeEmpty pts)).Vertices.length =
       2 * pts.length ∧
     ∀ i, i < pts.length →
       (newNodeOf st (readArc2D st defName "" nodeEmpty pts)).Vertices.getD (2 * i) v0 =
         pts.getD i v0 ∧
       (newNodeOf st (readArc2D st defName "" nodeEmpty pts)).Vertices.getD (2 * i + 1) v0 =
         pts.getD ((i + 1) % pts.length) v0) ∧
    ((readCircle2D st defName "" nodeEmpty pts).1 = none ∧
     (newNodeOf st (readCircle2D st defName "" nodeEmpty pts)).NumIndices = 2 ∧
     (newNodeOf st (readCircle2D st defName "" nodeEmpty pts)).Vertices.length =
       2 * pts.length ∧
     ∀ i, i < pts.length →
       (newNodeOf st (readCircle2D st defName "" nodeEmpty pts)).Vertices.getD (2 * i) v0 =
         pts.getD i v0 ∧
       (newNodeOf st (readCircle2D st defName "" nodeEmpty pts)).Vertices.getD (2 * i + 1) v0 =
         pts.getD ((i + 1) % pts.length) v0) := by
  have hx : extend_point_to_line pts =
      Except.ok (pairsFlatten (lineStripPairs pts)) := by
    unfold extend_point_to_line
    rw [if_neg (by omega)]
  have hA : readArc2D st defName "" nodeEmpty pts =
      (none, registerNode st ⟨X3DElemType.ENET_Arc2D, defID defName,
        pairsFlatten (lineStripPairs pts), false, 2⟩ nodeEmpty) := by
    unfold readArc2D
    rw [if_neg (by simp), hx]
  have hC : readCircle2D st defName "" nodeEmpty pts =
      (none, registerNode st ⟨X3DElemType.ENET_Circle2D, defID defName,
        pairsFlatten (lineStripPairs pts), false, 2⟩ nodeEmpty) := by
    unfold readCircle2D
    rw [if_neg (by simp), hx]
  have hlen : (pairsFlatten (lineStripPairs pts)).length = 2 * pts.length := by
    rw [pairsFlatten_length, lineStripPairs_length]
  have hidx : ∀ i, i < pts.length →
      (pairsFlatten (lineStripPairs pts)).getD (2 * i) v0 = pts.getD i v0 ∧
      (pairsFlatten (lineStripPairs pts)).getD (2 * i + 1) v0 =
        pts.getD ((i + 1) % pts.length) v0 := by
    intro i hi
    have hi2 : i < (lineStripPairs pts).length := by rwa [lineStripPairs_length]
    constructor
    · rw [pairsFlatten_getD_left _ _ hi2, lineStripPairs_getD _ _ hi]
    · rw [pairsFlatten_getD_right _ _ hi2, lineStripPairs_getD _ _ hi]
  refine ⟨⟨?_, ?_, ?_, ?_⟩, ⟨?_, ?_, ?_, ?_⟩⟩
  · rw [hA]
  · rw [hA, newNodeOf_registerNode]
  · rw [hA, newNodeOf_registerNode]; exact hlen
  · intro i hi; rw [hA, newNodeOf_registerNode]; exact hidx i hi
  · rw [hC]
  · rw [hC, newNodeOf_registerNode]
  · rw [hC, newNodeOf_registerNode]; exact hlen
  · intro i hi; rw [hC, newNodeOf_registerNode]; exact hidx i hi

/-- C8 witness: for two concrete tessellated points the Arc2D and Circle2D
strips have four vertices, NumIndices 2, and the second pair is the wrapping
edge from point 1 back to point 0. -/
theorem arc_circle_closed_line_strip_witness :
    (readArc2D st0 "" "" true arcSample).1 = none ∧
    (newNodeOf st0 (readArc2D st0 "" "" true arcSample)).Vertices.length = 4 ∧
    (newNodeOf st0 (readArc2D st0 "" "" true arcSample)).Vertices.getD 2 v0 =
      arcSample.getD 1 v0 ∧
    (newNodeOf st0 (readArc2D st0 "" "" true arcSample)).Vertices.getD 3 v0 =
      arcSample.getD 0 v0 ∧
    (newNodeOf st0 (readCircle2D st0 "" "" true arcSample)).NumIndices = 2 := by
  have h := arc_circle_closed_line_strip st0 "" true arcSample (by decide)
  have hp := h.1.2.2.2 1 (by decide)
  exact ⟨h.1.1, by simpa using h.1.2.2.1, by simpa using hp.1, by simpa using hp.2,
    h.2.2.1⟩

/-- C5: every primitive reader on the definition path that completes without
an error appends the newly created node to NodeElement_List exactly once —
on the immediate-attachment branch and on the deferred (nested metadata)
branch alike — and attaches it to the children of the current parent exactly when
the source node has no nested content. -/
theorem definition_path_registers_once (st : ImportState) (defName : String)
    (nodeEmpty : Bool) (ct : String)
    (startAngle endAngle innerRadius outerRadius w h : ℚ) (solid : Bool)
    (arcPts tlist_o tlist_i : List Vec3) (ps qs vs : List (ℚ × ℚ)) :
    ((readArc2D st defName "" nodeEmpty arcPts).1 = none →
      defPathOk st nodeEmpty (readArc2D st defName "" nodeEmpty arcPts)) ∧
    ((readArcClose2D st defName "" nodeEmpty ct startAngle endAngle solid arcPts).1 =
        none →
      defPathOk st nodeEmpty
        (readArcClose2D st defName "" nodeEmpty ct startAngle endAngle solid arcPts)) ∧
    ((readCircle2D st defName "" nodeEmpty arcPts).1 = none →
      defPathOk st nodeEmpty (readCircle2D st defName "" nodeEmpty arcPts)) ∧
    ((readDisk2D st defName "" nodeEmpty innerRadius outerRadius solid
        tlist_o tlist_i).1 = none →
      defPathOk st nodeEmpty
        (readDisk2D st defName "" nodeEmpty innerRadius outerRadius solid
          tlist_o tlist_i)) ∧
    ((readPolyline2D st defName "" nodeEmpty ps).1 = none →
      defPathOk st nodeEmpty (readPolyline2D st defName "" nodeEmpty ps)) ∧
    ((readPolypoint2D st defName "" nodeEmpty qs).1 = none →
      defPathOk st nodeEmpty (readPolypoint2D st defName "" nodeEmpty qs)) ∧
    ((readRectangle2D st defName "" nodeEmpty w h solid).1 = none →
      defPathOk st nodeEmpty (readRectangle2D st defName "" nodeEmpty w h solid)) ∧
    ((readTriangleSet2D st defName "" nodeEmpty solid vs).1 = none →
      defPathOk st nodeEmpty (readTriangleSet2D st defName "" nodeEmpty solid vs)) :=
  ⟨defPathOk_of_shape (readArc2D_shape st defName nodeEmpty arcPts),
   defPathOk_of_shape
     (readArcClose2D_shape st defName nodeEmpty ct startAngle endAngle solid arcPts),
   defPathOk_of_shape (readCircle2D_shape st defName nodeEmpty arcPts),
   defPathOk_of_shape
     (readDisk2D_shape st defName nodeEmpty innerRadius outerRadius solid
       tlist_o tlist_i),
   defPathOk_of_shape (readPolyline2D_shape st defName nodeEmpty ps),
   defPathOk_of_shape (Or.inr (readPolypoint2D_shape st defName nodeEmpty qs)),
   defPathOk_of_shape (Or.inr (readRectangle2D_shape st defName nodeEmpty w h solid)),
   defPathOk_of_shape (readTriangleSet2D_shape st defName nodeEmpty solid vs)⟩

/-- C5 witness: a concrete immediate-attachment Rectangle2D read and a
concrete deferred-attachment TriangleSet2D read both satisfy the
registry-and-attachment contract. -/
theorem definition_path_registers_once_witness :
    defPathOk st0 true (readRectangle2D st0 "d" "" true 2 2 false) ∧
    defPathOk st0 false (readTriangleSet2D st0 "" "" false false []) := by
  constructor
  · exact (definition_path_registers_once st0 "d" true "" 0 0 0 0 2 2 false
      [] [] [] [] [] []).2.2.2.2.2.2.1 rfl
  · exact (definition_path_registers_once st0 "" false "" 0 0 0 0 2 2 false
      [] [] [] [] [] []).2.2.2.2.2.2.2 rfl

/-- C10: whenever the Disk2D, TriangleSet2D or ArcClose2D reader exits with
an error on the definition path, the definition registry NodeElement_List
and the children of the current parent are exactly as they were before the call:
every throw happens before the registry append and the child attachment. -/
theorem throws_precede_registration (st : ImportState) (defName : String)
    (nodeEmpty : Bool) (ct : String)
    (startAngle endAngle innerRadius outerRadius : ℚ) (solid : Bool)
    (arcPts tlist_o tlist_i : List Vec3) (vs : List (ℚ × ℚ)) :
    (∀ e, (readDisk2D st defName "" nodeEmpty innerRadius outerRadius solid
        tlist_o tlist_i).1 = some e →
      (readDisk2D st defName "" nodeEmpty innerRadius outerRadius solid
        tlist_o tlist_i).2.NodeElement_List = st.NodeElement_List ∧
      (readDisk2D st defName "" nodeEmpty innerRadius outerRadius solid
        tlist_o tlist_i).2.Children = st.Children) ∧
    (∀ e, (readTriangleSet2D st defName "" nodeEmpty solid vs).1 = some e →
      (readTriangleSet2D st defName "" nodeEmpty solid vs).2.NodeElement_List =
        st.NodeElement_List ∧
      (readTriangleSet2D st defName "" nodeEmpty solid vs).2.Children = st.Children) ∧
    (∀ e, (readArcClose2D st defName "" nodeEmpty ct startAngle endAngle solid
        arcPts).1 = some e →
      (readArcClose2D st defName "" nodeEmpty ct startAngle endAngle solid
        arcPts).2.NodeElement_List = st.NodeElement_List ∧
      (readArcClose2D st defName "" nodeEmpty ct startAngle endAngle solid
        arcPts).2.Children = st.Children) := by
  refine ⟨fun e he => ?_, fun e he => ?_, fun e he => ?_⟩
  · rw [state_eq_of_shape (readDisk2D_shape st defName nodeEmpty innerRadius
      outerRadius solid tlist_o tlist_i) he]
    exact ⟨rfl, rfl⟩
  · rw [state_eq_of_shape (readTriangleSet2D_shape st defName nodeEmpty solid vs) he]
    exact ⟨rfl, rfl⟩
  · rw [state_eq_of_shape (readArcClose2D_shape st defName nodeEmpty ct startAngle
      endAngle solid arcPts) he]
    exact ⟨rfl, rfl⟩

/-- C10 witness: the concrete Disk2D call with innerRadius 2 > outerRadius 1
raises an error and leaves the registry and the children untouched. -/
theorem throws_precede_registration_witness :
    (readDisk2D st0 "" "" true 2 1 false arcSample arcSample).2.NodeElement_List =
      st0.NodeElement_List ∧
    (readDisk2D st0 "" "" true 2 1 false arcSample arcSample).2.Children =
      st0.Children :=
  (throws_precede_registration st0 "" true "" 0 0 2 1 false arcSample arcSample
    arcSample []).1 (X3DError.geometricConstraintError "Disk2D" "innerRadius")
    (by decide)

/-- C6: a primitive reader invoked with a USE name delegates to the registry
lookup; when no registered definition matches the name with the same
primitive kind the call fails with the reference error and leaves the state
untouched; when the lookup finds index i, the found node itself — the same
arena index, hence the identical vertex sequence by reference — is appended
to the current children, the arena and the registry are unchanged (no new
node is created or registered), and the entry at i is a definition of that
name and kind.  The lookup itself is modelled from the spec. -/
theorem use_path_lookup (st : ImportState) (useName : String) (t : X3DElemType) :
    ((∀ i ∈ st.NodeElement_List, matchesUse st useName t i = false) →
      useCheckAndApply st useName t = (some (X3DError.referenceError useName), st)) ∧
    (∀ i, st.NodeElement_List.find? (matchesUse st useName t) = some i →
      useCheckAndApply st useName t =
        (none, ⟨st.arena, st.NodeElement_List, st.Children ++ [i]⟩) ∧
      ∃ n, st.arena.get? i = some n ∧ n.ID = some useName ∧ n.kind = t) ∧
    (useName ≠ "" → ∀ defName nodeEmpty,
      (∀ arcPts, readArc2D st defName useName nodeEmpty arcPts =
        useCheckAndApply st useName X3DElemType.ENET_Arc2D) ∧
      (∀ ct sa ea solid arcPts,
        readArcClose2D st defName useName nodeEmpty ct sa ea solid arcPts =
          useCheckAndApply st useName X3DElemType.ENET_ArcClose2D) ∧
      (∀ arcPts, readCircle2D st defName useName nodeEmpty arcPts =
        useCheckAndApply st useName X3DElemType.ENET_Circle2D) ∧
      (∀ ir orad solid tlo tli,
        readDisk2D st defName useName nodeEmpty ir orad solid tlo tli =
          useCheckAndApply st useName X3DElemType.ENET_Disk2D) ∧
      (∀ ps, readPolyline2D st defName useName nodeEmpty ps =
        useCheckAndApply st useName X3DElemType.ENET_Polyline2D) ∧
      (∀ ps, readPolypoint2D st defName useName nodeEmpty ps =
        useCheckAndApply st useName X3DElemType.ENET_Polypoint2D) ∧
      (∀ w h solid, readRectangle2D st defName useName nodeEmpty w h solid =
        useCheckAndApply st useName X3DElemType.ENET_Rectangle2D) ∧
      (∀ solid vs, readTriangleSet2D st defName useName nodeEmpty solid vs =
        useCheckAndApply st useName X3DElemType.ENET_TriangleSet2D)) := by
  refine ⟨fun hall => ?_, fun i hf => ⟨?_, ?_⟩, fun hne defName nodeEmpty => ?_⟩
  · have hfind : st.NodeElement_List.find? (matchesUse st useName t) = none := by
      rw [List.find?_eq_none]
      intro x hx
      rw [hall x hx]
      exact Bool.false_ne_true
    unfold useCheckAndApply
    rw [hfind]
  · unfold useCheckAndApply
    rw [hf]
  · have hp : matchesUse st useName t i = true := List.find?_some hf
    unfold matchesUse at hp
    rcases hg : st.arena.get? i with _ | n
    · rw [hg] at hp
      simp at hp
    · rw [hg] at hp
      simp only [Bool.and_eq_true, decide_eq_true_eq] at hp
      exact ⟨n, rfl, hp.1, hp.2⟩
  · refine ⟨fun arcPts => ?_, fun ct sa ea solid arcPts => ?_, fun arcPts => ?_,
      fun ir orad solid tlo tli => ?_, fun ps => ?_, fun ps => ?_,
      fun w h solid => ?_, fun solid vs => ?_⟩
    · unfold readArc2D; rw [if_pos hne]
    · unfold readArcClose2D; rw [if_pos hne]
    · unfold readCircle2D; rw [if_pos hne]
    · unfold readDisk2D; rw [if_pos hne]
    · unfold readPolyline2D; rw [if_pos hne]
    · unfold readPolypoint2D; rw [if_pos hne]
    · unfold readRectangle2D; rw [if_pos hne]
    · unfold readTriangleSet2D; rw [if_pos hne]

/-- C6 witness: in a state holding one Circle2D definition named c1, looking
up the USE name missing raises the reference error with the state untouched,
while a Circle2D reader call with USE name c1 attaches registry index 0 —
the defined node itself — leaving arena and registry unchanged. -/
theorem use_path_lookup_witness :
    useCheckAndApply st1 "missing" X3DElemType.ENET_Circle2D =
      (some (X3DError.referenceError "missing"), st1) ∧
    readCircle2D st1 "" "c1" true [] =
      (none, ⟨st1.arena, st1.NodeElement_List, st1.Children ++ [0]⟩) := by
  constructor
  · exact (use_path_lookup st1 "missing" X3DElemType.ENET_Circle2D).1 (by decide)
  · have hd := ((use_path_lookup st1 "c1" X3DElemType.ENET_Circle2D).2.2
      (by decide) "" true).2.2.1 []
    have hl := ((use_path_lookup st1 "c1" X3DElemType.ENET_Circle2D).2.1 0
      (by decide)).1
    rw [hd, hl]
